import Mathlib

/-!
Verification of the address-resolution and reply-correlation core of the
`internet.ipynb` notebook: Ethernet/ARP/IPv4/ICMP codecs, the Internet
checksum, the ARP resolver with its cache and routing decision, and the
timeout-bounded reply waiters.

Byte strings are modelled as `List ℕ` (each entry one byte value).  Python
slicing `data[a:b]` is `pyslice`, bytearray slice assignment is `setSlice`,
`int.to_bytes(2, "big")` is `toBytes2` (callers establish the `< 2^16`
bound that Python enforces with `OverflowError`), and `int.from_bytes`
is `fromBytes`.  Fallible Python operations (index errors, overflow
errors, `None + bytes` type errors) are modelled with `Option`/`Except`.
The blocking transport consumed by the reply waiters is modelled as a
list of frame arrivals, each a pair of the time spent blocked in
`select` before the frame became readable and the raw frame bytes.
-/

/-- Python slice `data[a:b]` (for byte strings). -/
def pyslice (data : List ℕ) (a b : ℕ) : List ℕ :=
  (data.drop a).take (b - a)

/-- Python bytearray slice assignment `data[a:b] = v` (for `a ≤ b ≤ len`). -/
def setSlice (data : List ℕ) (a b : ℕ) (v : List ℕ) : List ℕ :=
  data.take a ++ v ++ data.drop b

/-- Python `n.to_bytes(2, "big")`; callers guard `n < 65536` as Python
raises `OverflowError` otherwise. -/
def toBytes2 (n : ℕ) : List ℕ :=
  [n / 256, n % 256]

/-- Python `int.from_bytes(data, "big")`. -/
def fromBytes (l : List ℕ) : ℕ :=
  l.foldl (fun acc b => acc * 256 + b) 0

/-! ## Process-wide configuration constants from the notebook -/

/-- `MY_MAC_ADDR = encode_mac_addr("1c:87:2c:46:e0:47")`. -/
def MY_MAC_ADDR : List ℕ := [0x1c, 0x87, 0x2c, 0x46, 0xe0, 0x47]

/-- `MY_IP_ADDR = encode_ip4_addr("192.168.1.250")`. -/
def MY_IP_ADDR : List ℕ := [192, 168, 1, 250]

/-- `SUBNET_MASK = encode_ip4_addr("255.255.255.0")`. -/
def SUBNET_MASK : List ℕ := [255, 255, 255, 0]

/-- `ROUTER_IP_ADDR = encode_ip4_addr("192.168.1.1")`. -/
def ROUTER_IP_ADDR : List ℕ := [192, 168, 1, 1]

/-- `BROADCAST_MAC_ADDR = encode_mac_addr("ff:ff:ff:ff:ff:ff")`. -/
def BROADCAST_MAC_ADDR : List ℕ := [0xff, 0xff, 0xff, 0xff, 0xff, 0xff]

/-- Ethertype `ARP = bytes.fromhex("08 06")`. -/
def ARP_ETHERTYPE : List ℕ := [0x08, 0x06]

/-- Ethertype `IPV4 = bytes.fromhex("08 00")`. -/
def IPV4_ETHERTYPE : List ℕ := [0x08, 0x00]

/-! ## Ethernet -/

/-- `ethernet_frame(dst_addr, src_addr, ethertype, payload)`. -/
def ethernet_frame (dst_addr src_addr ethertype payload : List ℕ) : List ℕ :=
  dst_addr ++ src_addr ++ ethertype ++ payload

/-- The `EthernetFrame` namedtuple. -/
structure EthernetFrame where
  dst_addr : List ℕ
  src_addr : List ℕ
  ethertype : List ℕ
  payload : List ℕ
  deriving DecidableEq, Repr

/-- `decode_ethernet_frame(data)`: pure slicing, no length validation. -/
def decode_ethernet_frame (data : List ℕ) : EthernetFrame :=
  { dst_addr := pyslice data 0 6
    src_addr := pyslice data 6 12
    ethertype := pyslice data 12 14
    payload := data.drop 14 }

/-! ## ARP -/

/-- `arp_request(src_mac_addr, src_ip_addr, dst_ip_addr)`: fixed fields
hardware type 1 (Ethernet), protocol type 0x0800 (IPv4), lengths 6 and 4,
operation 1 (request), all-zero target MAC. -/
def arp_request (src_mac_addr src_ip_addr dst_ip_addr : List ℕ) : List ℕ :=
  [0x00, 0x01] ++ [0x08, 0x00] ++ [0x06] ++ [0x04] ++ [0x00, 0x01]
    ++ src_mac_addr ++ src_ip_addr ++ List.replicate 6 0 ++ dst_ip_addr

/-- The `ArpPacket` namedtuple. -/
structure ArpPacket where
  htype : List ℕ
  ptype : List ℕ
  hlen : List ℕ
  plen : List ℕ
  oper : List ℕ
  sha : List ℕ
  spa : List ℕ
  tha : List ℕ
  tpa : List ℕ
  deriving DecidableEq, Repr

/-- `decode_arp_packet(data)`: pure slicing, no length validation.  The
`tpa` slice is `data[24:26]` exactly as in the source (which takes only
two of the four target-IP bytes). -/
def decode_arp_packet (data : List ℕ) : ArpPacket :=
  { htype := pyslice data 0 2
    ptype := pyslice data 2 4
    hlen := pyslice data 4 5
    plen := pyslice data 5 6
    oper := pyslice data 6 8
    sha := pyslice data 8 14
    spa := pyslice data 14 18
    tha := pyslice data 18 24
    tpa := pyslice data 24 26 }

/-! ## Internet checksum -/

/-- The 16-bit big-endian words of a buffer, as produced by
`[int.from_bytes(header[i:i+2], "big") for i in range(0, len(header), 2)]`.
On odd length the final one-byte slice yields the byte value itself. -/
def checksumWords : List ℕ → List ℕ
  | [] => []
  | [b] => [b]
  | b1 :: b2 :: rest => (b1 * 256 + b2) :: checksumWords rest

/-- One end-around-carry folding step `(full_sum & 0xFFFF) + (full_sum >> 16)`. -/
def addCarry (x : ℕ) : ℕ :=
  x % 65536 + x / 65536

/-- `calculate_checksum(header)`: sum of 16-bit words, two end-around-carry
folds, then `~full_sum & 0xFFFF` (in ℕ: `65535 - full_sum % 65536`, which
agrees with Python's infinite-precision `~` masked to 16 bits). -/
def calculate_checksum (header : List ℕ) : ℕ :=
  let full_sum := (checksumWords header).sum
  let full_sum := full_sum % 65536 + full_sum / 65536
  let full_sum := full_sum % 65536 + full_sum / 65536
  65535 - full_sum % 65536

/-! ## IPv4 and ICMP encoders -/

/-- `ip4_packet(src_ip_addr, dst_ip_addr, protocol, payload)`: builds the
20-byte header by bytearray mutation, computes the checksum with the
checksum field still zero, splices it in at bytes 10..12, and appends the
payload.  The guard models Python's `ValueError` on `header[9] = protocol`
for byte values out of range and `OverflowError` on
`total_length.to_bytes(2, "big")`. -/
def ip4_packet (src_ip_addr dst_ip_addr : List ℕ) (protocol : ℕ)
    (payload : List ℕ) : Option (List ℕ) :=
  let total_length := 5 * 4 + payload.length
  if protocol < 256 ∧ total_length < 65536 then
    let header := List.replicate (5 * 4) 0
    let header := header.set 0 ((4 <<< 4) + 5)     -- version, ihl
    let header := header.set 1 ((0 <<< 2) + 0)     -- dscp, ecn
    let header := setSlice header 2 4 (toBytes2 total_length)
    let header := setSlice header 4 6 (toBytes2 0) -- identification
    let header := setSlice header 6 8 (toBytes2 ((2 <<< 13) + 0))
                                                   -- flags, fragment offset
    let header := header.set 8 64                  -- ttl
    let header := header.set 9 protocol
    let header := setSlice header 12 16 src_ip_addr
    let header := setSlice header 16 20 dst_ip_addr
    let checksum := calculate_checksum header
    let header := setSlice header 10 12 (toBytes2 checksum)
    some (header ++ payload)
  else none

/-- The fixed 8-byte `"Python!!".encode("ascii")` payload appended to every
echo request. -/
def PING_PAYLOAD : List ℕ := [80, 121, 116, 104, 111, 110, 33, 33]

/-- `icmp_ping_request_packet(identifier, sequence_no)`: type 8, code 0,
identifier and sequence at bytes 4..8, `"Python!!"` appended, checksum
computed over the full 16-byte message with the checksum field still zero
and spliced in at bytes 2..4.  The guard models Python's `OverflowError`
on `to_bytes(2, "big")`. -/
def icmp_ping_request_packet (identifier sequence_no : ℕ) : Option (List ℕ) :=
  if identifier < 65536 ∧ sequence_no < 65536 then
    let message := List.replicate 8 0
    let message := message.set 0 8                 -- message type: echo request
    let message := message.set 1 0                 -- message code
    let message := setSlice message 4 6 (toBytes2 identifier)
    let message := setSlice message 6 8 (toBytes2 sequence_no)
    let message := message ++ PING_PAYLOAD
    let checksum := calculate_checksum message
    let message := setSlice message 2 4 (toBytes2 checksum)
    some message
  else none

/-! ## IPv4 and ICMP decoders -/

/-- The `IcmpPacket` namedtuple. -/
structure IcmpPacket where
  type : ℕ
  code : ℕ
  checksum : List ℕ
  identifier : ℕ
  sequence_no : ℕ
  payload : List ℕ
  deriving DecidableEq, Repr

/-- `decode_icmp_packet(data)`: `none` models Python's `IndexError` on
`data[0]`/`data[1]` when the buffer has fewer than 2 bytes; there is no
other length validation. -/
def decode_icmp_packet (data : List ℕ) : Option IcmpPacket :=
  if 2 ≤ data.length then
    some { type := data.getD 0 0
           code := data.getD 1 0
           checksum := pyslice data 2 4
           identifier := fromBytes (pyslice data 4 6)
           sequence_no := fromBytes (pyslice data 6 8)
           payload := data.drop 8 }
  else none

/-- The `Ipv4Packet` namedtuple. -/
structure Ipv4Packet where
  version_ihl : ℕ
  type : ℕ
  length : List ℕ
  id : List ℕ
  flags_offset : List ℕ
  ttl : ℕ
  protocol : ℕ
  checksum : List ℕ
  src_addr : List ℕ
  dst_addr : List ℕ
  payload : List ℕ
  deriving DecidableEq, Repr

/-- `decode_ipv4_packet(data)`: `none` models Python's `IndexError` on the
single-byte accesses `data[0]`, `data[1]`, `data[8]`, `data[9]` when the
buffer has fewer than 10 bytes; there is no other length validation, and
the payload is always `data[20:]` regardless of the decoded IHL. -/
def decode_ipv4_packet (data : List ℕ) : Option Ipv4Packet :=
  if 10 ≤ data.length then
    some { version_ihl := data.getD 0 0
           type := data.getD 1 0
           length := pyslice data 2 4
           id := pyslice data 4 6
           flags_offset := pyslice data 6 8
           ttl := data.getD 8 0
           protocol := data.getD 9 0
           checksum := pyslice data 10 12
           src_addr := pyslice data 12 16
           dst_addr := pyslice data 16 20
           payload := data.drop 20 }
  else none

/-! ## Reply waiters

The blocking transport is modelled as a list of frame arrivals; each entry
pairs the time spent blocked in `select` before that frame became readable
(measured from the start of that iteration's `select` call, matching
`select_time = time.time() - start_select`) with the raw frame bytes.
When the wait outlasts the remaining budget, `select` returns no ready
descriptor after consuming the whole remaining budget. -/

/-- The ARP filter applied to one received frame inside
`receive_arp_response`: destination MAC is ours, ethertype is ARP, and the
decoded ARP sender IP equals the address being resolved. -/
def arp_match (sender_ip_addr : List ℕ) (data : List ℕ) : Bool :=
  let frame := decode_ethernet_frame data
  (frame.dst_addr == MY_MAC_ADDR) && (frame.ethertype == ARP_ETHERTYPE) &&
    ((decode_arp_packet frame.payload).spa == sender_ip_addr)

/-- `receive_arp_response(socket, sender_ip_addr, timeout)`: the bounded
receive loop.  Returns the matching decoded ARP packet (or `none` on
timeout) together with the total time spent blocked in `select` across all
iterations.  Each iteration waits at most `time_left`; a non-matching
frame's wait is subtracted from the budget (`time_left -= select_time`)
and the loop returns `none` once the budget is exhausted. -/
def receive_arp_response (sender_ip_addr : List ℕ)
    (arrivals : List (ℚ × List ℕ)) (time_left : ℚ) : Option ArpPacket × ℚ :=
  match arrivals with
  | [] => (none, time_left)
  | (w, data) :: rest =>
    if time_left < w then
      (none, time_left)
    else if arp_match sender_ip_addr data then
      (some (decode_arp_packet (decode_ethernet_frame data).payload), w)
    else if time_left - w ≤ 0 then
      (none, w)
    else
      let r := receive_arp_response sender_ip_addr rest (time_left - w)
      (r.1, w + r.2)

/-- The ICMP filter applied to one received frame inside
`receive_echo_reply`.  `Except.error` models a Python `IndexError`
escaping from `decode_ipv4_packet`/`decode_icmp_packet` on a frame too
short to index; `Except.ok (some pkt)` is a matching echo reply;
`Except.ok none` is a non-matching frame. -/
def echo_match (src_ip_addr : List ℕ) (identifier sequence_no : ℕ)
    (data : List ℕ) : Except Unit (Option IcmpPacket) :=
  let frame := decode_ethernet_frame data
  if (frame.dst_addr == MY_MAC_ADDR) && (frame.ethertype == IPV4_ETHERTYPE) then
    match decode_ipv4_packet frame.payload with
    | none => .error ()
    | some ipv4_pkt =>
      if (ipv4_pkt.dst_addr == MY_IP_ADDR) && (ipv4_pkt.src_addr == src_ip_addr)
          && (ipv4_pkt.protocol == 1) then
        match decode_icmp_packet ipv4_pkt.payload with
        | none => .error ()
        | some icmp_pkt =>
          if (icmp_pkt.identifier == identifier)
              && (icmp_pkt.sequence_no == sequence_no) then
            .ok (some icmp_pkt)
          else
            .ok none
      else
        .ok none
  else
    .ok none

/-- `receive_echo_reply(socket, src_ip_addr, identifier, sequence_no,
timeout)`: same bounded loop as `receive_arp_response`, with the ICMP
filter; a decode `IndexError` propagates out of the loop. -/
def receive_echo_reply (src_ip_addr : List ℕ) (identifier sequence_no : ℕ)
    (arrivals : List (ℚ × List ℕ)) (time_left : ℚ) :
    Except Unit (Option IcmpPacket) × ℚ :=
  match arrivals with
  | [] => (.ok none, time_left)
  | (w, data) :: rest =>
    if time_left < w then
      (.ok none, time_left)
    else
      match echo_match src_ip_addr identifier sequence_no data with
      | .error () => (.error (), w)
      | .ok (some icmp_pkt) => (.ok (some icmp_pkt), w)
      | .ok none =>
        if time_left - w ≤ 0 then
          (.ok none, w)
        else
          let r := receive_echo_reply src_ip_addr identifier sequence_no rest
            (time_left - w)
          (r.1, w + r.2)

/-! ## ARP resolver -/

/-- Lookup in the `ARP_TABLE` dict (keyed by the 4-byte IP). -/
def table_get : List (List ℕ × List ℕ) → List ℕ → Option (List ℕ)
  | [], _ => none
  | (k, v) :: rest, key => if k = key then some v else table_get rest key

/-- Dict assignment `ARP_TABLE[ip_addr] = mac`: the new binding shadows any
older one. -/
def table_put (table : List (List ℕ × List ℕ)) (key value : List ℕ) :
    List (List ℕ × List ℕ) :=
  (key, value) :: table

/-- Observable outcome of one `resolve_local_ip_addr` call: the returned
MAC (or `None`), the frames sent on the resolver's own packet socket,
whether the receive loop was entered, and the ARP table afterwards. -/
structure ResolveResult where
  result : Option (List ℕ)
  sent : List (List ℕ)
  waited : Bool
  table : List (List ℕ × List ℕ)
  deriving DecidableEq, Repr

/-- `resolve_local_ip_addr(ip_addr)`: cache lookup first; on a miss,
broadcast an ARP request and wait (timeout 1.0) for a matching reply,
caching the answering MAC on success.  `arrivals` models the frames the
resolver's freshly opened socket would deliver. -/
def resolve_local_ip_addr (table : List (List ℕ × List ℕ))
    (arrivals : List (ℚ × List ℕ)) (ip_addr : List ℕ) : ResolveResult :=
  match table_get table ip_addr with
  | some mac => ⟨some mac, [], false, table⟩
  | none =>
    let arp_pkt := arp_request MY_MAC_ADDR MY_IP_ADDR ip_addr
    let frame := ethernet_frame BROADCAST_MAC_ADDR MY_MAC_ADDR ARP_ETHERTYPE arp_pkt
    match (receive_arp_response ip_addr arrivals 1).1 with
    | some response => ⟨some response.sha, [frame], true,
        table_put table ip_addr response.sha⟩
    | none => ⟨none, [frame], true, table⟩

/-- `bytes(b1 & b2 for b1, b2 in zip(a, b))`. -/
def bandZip (a b : List ℕ) : List ℕ :=
  (a.zip b).map fun p => p.1 &&& p.2

/-- `is_on_same_subnet(ip_addr)`: compare the masked network prefixes. -/
def is_on_same_subnet (ip_addr : List ℕ) : Bool :=
  bandZip MY_IP_ADDR SUBNET_MASK == bandZip ip_addr SUBNET_MASK

/-- `resolve_ip_addr(ip_addr)`: resolve the address itself when it is on
the local subnet, otherwise resolve the router's address. -/
def resolve_ip_addr (table : List (List ℕ × List ℕ))
    (arrivals : List (ℚ × List ℕ)) (ip_addr : List ℕ) : ResolveResult :=
  if is_on_same_subnet ip_addr then
    resolve_local_ip_addr table arrivals ip_addr
  else
    resolve_local_ip_addr table arrivals ROUTER_IP_ADDR

/-! ## ICMP echo sender -/

/-- Observable outcome of one `send_echo_request` call: whether the call
completed or raised (`Except.error` models the uncaught Python exception:
`TypeError` from `None + bytes` when resolution failed, or `OverflowError`
from `to_bytes`), the frames sent on the caller's socket, and the ARP
table afterwards. -/
structure PingSendResult where
  outcome : Except Unit Unit
  sent : List (List ℕ)
  table : List (List ℕ × List ℕ)
  deriving Repr

/-- `send_echo_request(socket, dst_ip_addr, identifier, sequence_no)`:
resolve the next hop (ARP traffic goes over the resolver's own socket, not
this one), build the ICMP echo request and the IPv4 packet, and send the
Ethernet frame addressed to the resolved MAC.  When resolution returned
`None`, `ethernet_frame` raises `TypeError` on `None + bytes` and nothing
is sent on this socket. -/
def send_echo_request (table : List (List ℕ × List ℕ))
    (arp_arrivals : List (ℚ × List ℕ)) (dst_ip_addr : List ℕ)
    (identifier sequence_no : ℕ) : PingSendResult :=
  let r := resolve_ip_addr table arp_arrivals dst_ip_addr
  match icmp_ping_request_packet identifier sequence_no with
  | none => ⟨.error (), [], r.table⟩
  | some icmp_pkt =>
    match ip4_packet MY_IP_ADDR dst_ip_addr 1 icmp_pkt with
    | none => ⟨.error (), [], r.table⟩
    | some ip_pkt =>
      match r.result with
      | none => ⟨.error (), [], r.table⟩
      | some mac =>
        ⟨.ok (), [ethernet_frame mac MY_MAC_ADDR IPV4_ETHERTYPE ip_pkt], r.table⟩

/-- A well-formed ARP reply frame from the router (destination our MAC,
ARP ethertype, operation 2, sender the router), used as a concrete
transport arrival in witnesses. -/
def arpReplyFrame : List ℕ :=
  ethernet_frame MY_MAC_ADDR [0, 31, 22, 248, 55, 134] ARP_ETHERTYPE
    ([0, 1, 8, 0, 6, 4, 0, 2] ++ [0, 31, 22, 248, 55, 134] ++ ROUTER_IP_ADDR
      ++ List.replicate 6 0 ++ MY_IP_ADDR)

deriving instance DecidableEq for Except

/-! ## Helper lemmas -/

theorem addCarry_mod_65535 (x : ℕ) : addCarry x % 65535 = x % 65535 := by
  unfold addCarry; omega

theorem addCarry_le (x : ℕ) : addCarry x ≤ x := by
  unfold addCarry; omega

theorem addCarry_pos {x : ℕ} (h : 0 < x) : 0 < addCarry x := by
  unfold addCarry; omega

theorem addCarry_addCarry_le {x : ℕ} (h : x ≤ 65535 * 65536) :
    addCarry (addCarry x) ≤ 65535 := by
  unfold addCarry; omega

theorem checksumWords_append : ∀ (l m : List ℕ), 2 ∣ l.length →
    checksumWords (l ++ m) = checksumWords l ++ checksumWords m
  | [], m, _ => rfl
  | [b], m, h => absurd h (by simp)
  | b1 :: b2 :: rest, m, h => by
    have h2 : 2 ∣ rest.length := by
      simp only [List.length_cons] at h; omega
    simp only [List.cons_append, checksumWords, List.append_eq,
      checksumWords_append rest m h2]

theorem checksumWords_sum_le : ∀ (l : List ℕ), (∀ x ∈ l, x < 256) →
    (checksumWords l).sum ≤ 65535 * ((l.length + 1) / 2)
  | [], _ => by simp [checksumWords]
  | [b], h => by
    have := h b (by simp)
    simp only [checksumWords, List.sum_cons, List.sum_nil, List.length_cons,
      List.length_nil]
    omega
  | b1 :: b2 :: rest, h => by
    have h1 := h b1 (by simp)
    have h2 := h b2 (by simp)
    have ih := checksumWords_sum_le rest (fun x hx => h x (by simp [hx]))
    simp only [checksumWords, List.sum_cons, List.length_cons]
    have : (rest.length + 1 + 1 + 1) / 2 = (rest.length + 1) / 2 + 1 := by omega
    rw [this]
    omega

theorem calculate_checksum_eq (l : List ℕ) :
    calculate_checksum l
      = 65535 - addCarry (addCarry (checksumWords l).sum) % 65536 :=
  rfl

theorem calculate_checksum_le (l : List ℕ) : calculate_checksum l ≤ 65535 := by
  rw [calculate_checksum_eq]; omega

theorem checksum_sum_le {l : List ℕ} (hB : ∀ x ∈ l, x < 256)
    (hlen : l.length ≤ 131072) : (checksumWords l).sum ≤ 65535 * 65536 := by
  have h1 := checksumWords_sum_le l hB
  have h2 : (l.length + 1) / 2 ≤ 65536 := by omega
  calc (checksumWords l).sum ≤ 65535 * ((l.length + 1) / 2) := h1
    _ ≤ 65535 * 65536 := Nat.mul_le_mul_left _ h2

/-- Core checksum-verification property: embedding the checksum of the
zeroed buffer into the checksum field makes the whole buffer checksum to
zero.  `pre` is the (word-aligned, even-length) part before the 2-byte
checksum field and `post` the part after it. -/
theorem checksum_embed_zero (pre post : List ℕ)
    (hpre2 : 2 ∣ pre.length) (hpreB : ∀ x ∈ pre, x < 256)
    (hpostB : ∀ x ∈ post, x < 256)
    (hlen : pre.length + 2 + post.length ≤ 131072) :
    calculate_checksum
      (pre ++ toBytes2 (calculate_checksum (pre ++ [0, 0] ++ post)) ++ post)
      = 0 := by
  set c := calculate_checksum (pre ++ [0, 0] ++ post) with hc
  have hwz : checksumWords (pre ++ [0, 0] ++ post)
      = checksumWords pre ++ 0 :: checksumWords post := by
    rw [List.append_assoc, checksumWords_append pre _ hpre2]
    simp [checksumWords]
  have hwr : checksumWords (pre ++ toBytes2 c ++ post)
      = checksumWords pre ++ c :: checksumWords post := by
    rw [List.append_assoc, checksumWords_append pre _ hpre2]
    have : c / 256 * 256 + c % 256 = c := by omega
    simp [toBytes2, checksumWords, this]
  set Sz := (checksumWords (pre ++ [0, 0] ++ post)).sum with hSz
  set Sr := (checksumWords (pre ++ toBytes2 c ++ post)).sum with hSr
  have hSzv : Sz = (checksumWords pre).sum + (checksumWords post).sum := by
    rw [hSz, hwz]; simp
  have hSrv : Sr = (checksumWords pre).sum + c + (checksumWords post).sum := by
    rw [hSr, hwr]; simp; ring
  have hzB : ∀ x ∈ pre ++ [0, 0] ++ post, x < 256 := by
    intro x hx
    rcases List.mem_append.1 hx with hx | hx
    · rcases List.mem_append.1 hx with hx | hx
      · exact hpreB x hx
      · simp at hx; omega
    · exact hpostB x hx
  have hcle : c ≤ 65535 := calculate_checksum_le _
  have hrB : ∀ x ∈ pre ++ toBytes2 c ++ post, x < 256 := by
    intro x hx
    rcases List.mem_append.1 hx with hx | hx
    · rcases List.mem_append.1 hx with hx | hx
      · exact hpreB x hx
      · simp [toBytes2] at hx; omega
    · exact hpostB x hx
  have hSzle : Sz ≤ 65535 * 65536 := by
    apply checksum_sum_le hzB; simp; omega
  have hSrle : Sr ≤ 65535 * 65536 := by
    apply checksum_sum_le hrB; simp [toBytes2]; omega
  set f := addCarry (addCarry Sz) with hf
  have hfle : f ≤ 65535 := addCarry_addCarry_le hSzle
  have hcv : c = 65535 - f := by
    rw [hc, calculate_checksum_eq, ← hSz, ← hf]; omega
  have hfleS : f ≤ Sz := le_trans (addCarry_le _) (addCarry_le _)
  have hfmod : f % 65535 = Sz % 65535 := by
    rw [hf, addCarry_mod_65535, addCarry_mod_65535]
  set g := addCarry (addCarry Sr) with hg
  have hgle : g ≤ 65535 := addCarry_addCarry_le hSrle
  have hgmod : g % 65535 = Sr % 65535 := by
    rw [hg, addCarry_mod_65535, addCarry_mod_65535]
  have hSrz : Sr = Sz + (65535 - f) := by omega
  have hSrmod : Sr % 65535 = 0 := by omega
  have hSrpos : 0 < Sr := by omega
  have hgpos : 0 < g := addCarry_pos (addCarry_pos hSrpos)
  have hgv : g = 65535 := by omega
  rw [calculate_checksum_eq, ← hSr, ← hg, hgv]

theorem list_len4 {l : List ℕ} (h : l.length = 4) :
    ∃ a b c d, l = [a, b, c, d] := by
  rcases l with _ | ⟨a, l⟩; · simp at h
  rcases l with _ | ⟨b, l⟩; · simp at h
  rcases l with _ | ⟨c, l⟩; · simp at h
  rcases l with _ | ⟨d, l⟩; · simp at h
  rcases l with _ | ⟨e, l⟩
  · exact ⟨a, b, c, d, rfl⟩
  · simp at h

theorem list_len6 {l : List ℕ} (h : l.length = 6) :
    ∃ a b c d e f, l = [a, b, c, d, e, f] := by
  rcases l with _ | ⟨a, l⟩; · simp at h
  rcases l with _ | ⟨b, l⟩; · simp at h
  rcases l with _ | ⟨c, l⟩; · simp at h
  rcases l with _ | ⟨d, l⟩; · simp at h
  rcases l with _ | ⟨e, l⟩; · simp at h
  rcases l with _ | ⟨f, l⟩; · simp at h
  rcases l with _ | ⟨g, l⟩
  · exact ⟨a, b, c, d, e, f, rfl⟩
  · simp at h

/-- `ip4_packet` on 4-byte addresses, in explicit layout form: the 20-byte
header with the checksum of the zeroed header embedded at bytes 10..12,
followed by the payload. -/
theorem ip4_packet_eq (a b c d e f g h protocol : ℕ) (payload : List ℕ)
    (hp : protocol < 256) (hl : 5 * 4 + payload.length < 65536) :
    ip4_packet [a, b, c, d] [e, f, g, h] protocol payload =
      some ((([69, 0] ++ toBytes2 (5 * 4 + payload.length)
          ++ [0, 0, 64, 0, 64, protocol])
        ++ toBytes2 (calculate_checksum
            (([69, 0] ++ toBytes2 (5 * 4 + payload.length)
              ++ [0, 0, 64, 0, 64, protocol])
              ++ [0, 0] ++ [a, b, c, d, e, f, g, h]))
        ++ [a, b, c, d, e, f, g, h]) ++ payload) := by
  unfold ip4_packet
  rw [if_pos ⟨hp, hl⟩]
  rfl

/-- The checksum of the 20-byte header of any packet the IPv4 encoder
produces is zero. -/
theorem ip4_header_checksum_zero (src_ip dst_ip : List ℕ) (protocol : ℕ)
    (payload pkt : List ℕ)
    (hsrc : src_ip.length = 4) (hdst : dst_ip.length = 4)
    (hsrcB : ∀ x ∈ src_ip, x < 256) (hdstB : ∀ x ∈ dst_ip, x < 256)
    (hpkt : ip4_packet src_ip dst_ip protocol payload = some pkt) :
    calculate_checksum (pkt.take 20) = 0 := by
  obtain ⟨a, b, c, d, rfl⟩ := list_len4 hsrc
  obtain ⟨e, f, g, h, rfl⟩ := list_len4 hdst
  by_cases hg : protocol < 256 ∧ 5 * 4 + payload.length < 65536
  · rw [ip4_packet_eq a b c d e f g h protocol payload hg.1 hg.2] at hpkt
    have ha : a < 256 := hsrcB a (by simp)
    have hb : b < 256 := hsrcB b (by simp)
    have hc : c < 256 := hsrcB c (by simp)
    have hd : d < 256 := hsrcB d (by simp)
    have he : e < 256 := hdstB e (by simp)
    have hf : f < 256 := hdstB f (by simp)
    have hg' : g < 256 := hdstB g (by simp)
    have hh : h < 256 := hdstB h (by simp)
    obtain rfl : (([69, 0] ++ toBytes2 (5 * 4 + payload.length)
          ++ [0, 0, 64, 0, 64, protocol])
        ++ toBytes2 (calculate_checksum
            (([69, 0] ++ toBytes2 (5 * 4 + payload.length)
              ++ [0, 0, 64, 0, 64, protocol])
              ++ [0, 0] ++ [a, b, c, d, e, f, g, h]))
        ++ [a, b, c, d, e, f, g, h]) ++ payload = pkt := by
      injection hpkt
    rw [List.take_left' (by simp [toBytes2])]
    apply checksum_embed_zero
    · simp [toBytes2]
      omega
    · intro x hx
      simp [toBytes2] at hx
      have : 5 * 4 + payload.length < 65536 := hg.2
      rcases hx with hx | hx | hx | hx | hx | hx | hx | hx <;> omega
    · intro x hx
      simp at hx
      rcases hx with hx | hx | hx | hx | hx | hx | hx | hx <;> omega
    · simp [toBytes2]
  · unfold ip4_packet at hpkt
    rw [if_neg hg] at hpkt
    cases hpkt

/-- `decode_ipv4_packet` in explicit field form on any buffer long enough
for the single-byte accesses. -/
theorem decode_ipv4_fields (data : List ℕ) (h : 10 ≤ data.length) :
    decode_ipv4_packet data = some
      { version_ihl := data.getD 0 0
        type := data.getD 1 0
        length := pyslice data 2 4
        id := pyslice data 4 6
        flags_offset := pyslice data 6 8
        ttl := data.getD 8 0
        protocol := data.getD 9 0
        checksum := pyslice data 10 12
        src_addr := pyslice data 12 16
        dst_addr := pyslice data 16 20
        payload := data.drop 20 } := by
  unfold decode_ipv4_packet
  rw [if_pos h]

theorem decode_icmp_fields (data : List ℕ) (h : 2 ≤ data.length) :
    decode_icmp_packet data = some
      { type := data.getD 0 0
        code := data.getD 1 0
        checksum := pyslice data 2 4
        identifier := fromBytes (pyslice data 4 6)
        sequence_no := fromBytes (pyslice data 6 8)
        payload := data.drop 8 } := by
  unfold decode_icmp_packet
  rw [if_pos h]

theorem icmp_ping_eq (identifier sequence_no : ℕ)
    (hid : identifier < 65536) (hseq : sequence_no < 65536) :
    icmp_ping_request_packet identifier sequence_no =
      some ([8, 0]
        ++ toBytes2 (calculate_checksum
            ([8, 0, 0, 0] ++ toBytes2 identifier ++ toBytes2 sequence_no
              ++ PING_PAYLOAD))
        ++ toBytes2 identifier ++ toBytes2 sequence_no ++ PING_PAYLOAD) := by
  unfold icmp_ping_request_packet
  rw [if_pos ⟨hid, hseq⟩]
  rfl

theorem fromBytes_toBytes2 (n : ℕ) : fromBytes (toBytes2 n) = n := by
  simp only [fromBytes, toBytes2, List.foldl]
  omega


theorem decode_ethernet_payload (dst src et p : List ℕ)
    (h1 : dst.length = 6) (h2 : src.length = 6) (h3 : et.length = 2) :
    (decode_ethernet_frame (ethernet_frame dst src et p)).payload = p := by
  obtain ⟨d1, d2, d3, d4, d5, d6, rfl⟩ := list_len6 h1
  obtain ⟨s1, s2, s3, s4, s5, s6, rfl⟩ := list_len6 h2
  rcases et with _ | ⟨e1, et⟩; · simp at h3
  rcases et with _ | ⟨e2, et⟩; · simp at h3
  rcases et with _ | ⟨e3, et⟩
  · rfl
  · simp at h3

theorem decode_ipv4_payload (H p : List ℕ) (hH : H.length = 20) :
    ∃ r, decode_ipv4_packet (H ++ p) = some r ∧ r.payload = p :=
  ⟨_, decode_ipv4_fields _ (by simp [hH]; omega), List.drop_left' hH⟩

theorem decode_icmp_ping (identifier sequence_no C : ℕ) :
    ∃ r, decode_icmp_packet ([8, 0] ++ toBytes2 C ++ toBytes2 identifier
        ++ toBytes2 sequence_no ++ PING_PAYLOAD) = some r ∧
      r.identifier = identifier ∧ r.sequence_no = sequence_no ∧
      r.payload = PING_PAYLOAD := by
  refine ⟨_, decode_icmp_fields _ (by simp [toBytes2, PING_PAYLOAD]), ?_, ?_, ?_⟩
  · show fromBytes (pyslice ([8, 0] ++ toBytes2 C ++ toBytes2 identifier
        ++ toBytes2 sequence_no ++ PING_PAYLOAD) 4 6) = identifier
    have hsl : pyslice ([8, 0] ++ toBytes2 C ++ toBytes2 identifier
        ++ toBytes2 sequence_no ++ PING_PAYLOAD) 4 6 = toBytes2 identifier := rfl
    rw [hsl, fromBytes_toBytes2]
  · show fromBytes (pyslice ([8, 0] ++ toBytes2 C ++ toBytes2 identifier
        ++ toBytes2 sequence_no ++ PING_PAYLOAD) 6 8) = sequence_no
    have hsl : pyslice ([8, 0] ++ toBytes2 C ++ toBytes2 identifier
        ++ toBytes2 sequence_no ++ PING_PAYLOAD) 6 8 = toBytes2 sequence_no := rfl
    rw [hsl, fromBytes_toBytes2]
  · show List.drop 8 ([8, 0] ++ toBytes2 C ++ toBytes2 identifier
        ++ toBytes2 sequence_no ++ PING_PAYLOAD) = PING_PAYLOAD
    rfl

/-- C7: encoding an ICMP echo request, wrapping it in an IPv4 packet
(protocol 1) and an Ethernet frame, then decoding back through the
Ethernet, IPv4 and ICMP decoders recovers the identifier, the sequence
number and the 8-byte `"Python!!"` payload, for every 16-bit identifier
and sequence number. -/
theorem icmp_three_layer_round_trip (dmac smac sip dip : List ℕ)
    (identifier sequence_no : ℕ)
    (hdm : dmac.length = 6) (hsm : smac.length = 6)
    (hsi : sip.length = 4) (hdi : dip.length = 4)
    (hid : identifier < 65536) (hseq : sequence_no < 65536) :
    ∃ icmp_msg ip_pkt ip_dec icmp_dec,
      icmp_ping_request_packet identifier sequence_no = some icmp_msg ∧
      ip4_packet sip dip 1 icmp_msg = some ip_pkt ∧
      (decode_ethernet_frame
        (ethernet_frame dmac smac IPV4_ETHERTYPE ip_pkt)).payload = ip_pkt ∧
      decode_ipv4_packet ip_pkt = some ip_dec ∧
      decode_icmp_packet ip_dec.payload = some icmp_dec ∧
      icmp_dec.identifier = identifier ∧
      icmp_dec.sequence_no = sequence_no ∧
      icmp_dec.payload = PING_PAYLOAD := by
  obtain ⟨a, b, c, d, rfl⟩ := list_len4 hsi
  obtain ⟨e, f, g, h, rfl⟩ := list_len4 hdi
  have hicmp := icmp_ping_eq identifier sequence_no hid hseq
  set icmp_msg := [8, 0]
        ++ toBytes2 (calculate_checksum
            ([8, 0, 0, 0] ++ toBytes2 identifier ++ toBytes2 sequence_no
              ++ PING_PAYLOAD))
        ++ toBytes2 identifier ++ toBytes2 sequence_no ++ PING_PAYLOAD with hmsg
  have hlen16 : icmp_msg.length = 16 := by
    simp [hmsg, toBytes2, PING_PAYLOAD]
  have hip := ip4_packet_eq a b c d e f g h 1 icmp_msg (by omega)
    (by rw [hlen16]; omega)
  set H20 := ([69, 0] ++ toBytes2 (5 * 4 + icmp_msg.length)
          ++ [0, 0, 64, 0, 64, 1])
        ++ toBytes2 (calculate_checksum
            (([69, 0] ++ toBytes2 (5 * 4 + icmp_msg.length)
              ++ [0, 0, 64, 0, 64, 1])
              ++ [0, 0] ++ [a, b, c, d, e, f, g, h]))
        ++ [a, b, c, d, e, f, g, h] with hH20
  have hH20len : H20.length = 20 := by
    simp [hH20, toBytes2]
  obtain ⟨r4, hr4, hr4p⟩ := decode_ipv4_payload H20 icmp_msg hH20len
  obtain ⟨r1, hr1, hid1, hseq1, hpay1⟩ :=
    decode_icmp_ping identifier sequence_no _
  exact ⟨icmp_msg, H20 ++ icmp_msg, r4, r1, hicmp, hip,
    decode_ethernet_payload _ _ _ _ hdm hsm rfl, hr4,
    by rw [hr4p]; exact hr1, hid1, hseq1, hpay1⟩

/-- The total time spent blocked in `select` by the ARP reply waiter never
exceeds the deadline. -/
theorem receive_arp_time_le (sender_ip_addr : List ℕ) :
    ∀ (arrivals : List (ℚ × List ℕ)) (d : ℚ), 0 < d →
      (receive_arp_response sender_ip_addr arrivals d).2 ≤ d
  | [], d, _ => le_refl d
  | (w, data) :: rest, d, hd => by
    unfold receive_arp_response
    split_ifs with h1 h2 h3
    · exact le_refl d
    · simpa using not_lt.mp h1
    · simpa using not_lt.mp h1
    · have hrec := receive_arp_time_le sender_ip_addr rest (d - w)
        (by linarith [not_le.mp h3])
      simp only
      linarith

/-- When no arriving frame matches, the ARP reply waiter reports no
match. -/
theorem receive_arp_none (sender_ip_addr : List ℕ) :
    ∀ (arrivals : List (ℚ × List ℕ)) (d : ℚ),
      (∀ p ∈ arrivals, arp_match sender_ip_addr p.2 = false) →
      (receive_arp_response sender_ip_addr arrivals d).1 = none
  | [], _, _ => rfl
  | (w, data) :: rest, d, h => by
    unfold receive_arp_response
    split_ifs with h1 h2 h3
    · rfl
    · exact absurd h2 (by simp [h (w, data) (List.mem_cons_self _ _)])
    · rfl
    · simp only
      exact receive_arp_none sender_ip_addr rest (d - w)
        (fun p hp => h p (List.mem_cons_of_mem _ hp))

/-- The total time spent blocked in `select` by the echo reply waiter
never exceeds the deadline. -/
theorem receive_echo_time_le (src_ip_addr : List ℕ)
    (identifier sequence_no : ℕ) :
    ∀ (arrivals : List (ℚ × List ℕ)) (d : ℚ), 0 < d →
      (receive_echo_reply src_ip_addr identifier sequence_no arrivals d).2 ≤ d
  | [], d, _ => le_refl d
  | (w, data) :: rest, d, hd => by
    unfold receive_echo_reply
    rcases hm : echo_match src_ip_addr identifier sequence_no data with u | r
    · cases u
      split_ifs <;> first | exact le_refl d | exact not_lt.mp (by assumption)
    · rcases r with _ | pkt
      · split_ifs with h1 h3
        · exact le_refl d
        · exact not_lt.mp h1
        · have hrec := receive_echo_time_le src_ip_addr identifier
            sequence_no rest (d - w) (by linarith [not_le.mp h3])
          show w + (receive_echo_reply src_ip_addr identifier sequence_no rest
            (d - w)).2 ≤ d
          linarith
      · split_ifs <;> first | exact le_refl d | exact not_lt.mp (by assumption)

/-- When no arriving frame matches (and none makes the decoders raise),
the echo reply waiter reports no match. -/
theorem receive_echo_none (src_ip_addr : List ℕ)
    (identifier sequence_no : ℕ) :
    ∀ (arrivals : List (ℚ × List ℕ)) (d : ℚ),
      (∀ p ∈ arrivals,
        echo_match src_ip_addr identifier sequence_no p.2 = .ok none) →
      (receive_echo_reply src_ip_addr identifier sequence_no arrivals d).1
        = .ok none
  | [], _, _ => rfl
  | (w, data) :: rest, d, h => by
    unfold receive_echo_reply
    rw [h (w, data) (List.mem_cons_self _ _)]
    split_ifs with h1 h3
    · rfl
    · rfl
    · exact receive_echo_none src_ip_addr identifier sequence_no rest (d - w)
        (fun p hp => h p (List.mem_cons_of_mem _ hp))

theorem table_get_put (table : List (List ℕ × List ℕ)) (key value : List ℕ) :
    table_get (table_put table key value) key = some value := by
  simp [table_get, table_put]

/-- A cache hit returns the cached MAC with no send and no wait. -/
theorem resolve_local_cached (table : List (List ℕ × List ℕ))
    (arrivals : List (ℚ × List ℕ)) (ip_addr mac : List ℕ)
    (h : table_get table ip_addr = some mac) :
    resolve_local_ip_addr table arrivals ip_addr
      = ⟨some mac, [], false, table⟩ := by
  unfold resolve_local_ip_addr
  rw [h]

/-- After a successful resolution the returned MAC is in the resulting
table under the resolved IP. -/
theorem resolve_local_result_in_table (table : List (List ℕ × List ℕ))
    (arrivals : List (ℚ × List ℕ)) (ip_addr mac : List ℕ)
    (h : (resolve_local_ip_addr table arrivals ip_addr).result = some mac) :
    table_get (resolve_local_ip_addr table arrivals ip_addr).table ip_addr
      = some mac := by
  unfold resolve_local_ip_addr at h ⊢
  cases hg : table_get table ip_addr with
  | some m =>
    rw [hg] at h
    dsimp only at h ⊢
    rw [hg]
    exact h
  | none =>
    rw [hg] at h
    cases hr : (receive_arp_response ip_addr arrivals 1).1 with
    | some response =>
      rw [hr] at h
      dsimp only at h ⊢
      obtain rfl : response.sha = mac := by
        simpa using h
      exact table_get_put table ip_addr response.sha
    | none =>
      rw [hr] at h
      simp at h

/-! ## Claim theorems -/

/-- C1: the resolver's routing decision resolves the target itself when
`target & subnet_mask` equals `own_ip & subnet_mask` and resolves the
gateway otherwise; in particular 192.168.1.54 is on the local subnet and
8.8.8.8 is not. -/
theorem resolver_routing_decision :
    (∀ (t : List ℕ) (table : List (List ℕ × List ℕ))
        (arrivals : List (ℚ × List ℕ)),
      (bandZip t SUBNET_MASK = bandZip MY_IP_ADDR SUBNET_MASK →
        resolve_ip_addr table arrivals t
          = resolve_local_ip_addr table arrivals t) ∧
      (bandZip t SUBNET_MASK ≠ bandZip MY_IP_ADDR SUBNET_MASK →
        resolve_ip_addr table arrivals t
          = resolve_local_ip_addr table arrivals ROUTER_IP_ADDR)) ∧
    is_on_same_subnet [192, 168, 1, 54] = true ∧
    is_on_same_subnet [8, 8, 8, 8] = false := by
  refine ⟨fun t table arrivals => ⟨fun h => ?_, fun h => ?_⟩, by decide, by decide⟩
  · have hs : is_on_same_subnet t = true := by
      simp only [is_on_same_subnet, beq_iff_eq]
      exact h.symm
    simp [resolve_ip_addr, hs]
  · have hs : is_on_same_subnet t = false := by
      simp only [is_on_same_subnet, beq_eq_false_iff_ne]
      exact fun hh => h hh.symm
    simp [resolve_ip_addr, hs]

/-- Witness for C1 at the two concrete addresses from the notebook. -/
theorem resolver_routing_decision_witness :
    resolve_ip_addr [] [] [192, 168, 1, 54]
      = resolve_local_ip_addr [] [] [192, 168, 1, 54] ∧
    resolve_ip_addr [] [] [8, 8, 8, 8]
      = resolve_local_ip_addr [] [] ROUTER_IP_ADDR :=
  ⟨(resolver_routing_decision.1 [192, 168, 1, 54] [] []).1 (by decide),
   (resolver_routing_decision.1 [8, 8, 8, 8] [] []).2 (by decide)⟩

/-- C2: writing the checksum of the zeroed buffer into the checksum field
makes the whole buffer checksum to zero, for every even-length buffer of
at most 128 KiB with a word-aligned 2-byte checksum field; in particular
the 20-byte header of every packet the IPv4 encoder produces has checksum
zero. -/
theorem checksum_field_verifies :
    (∀ pre post : List ℕ, 2 ∣ pre.length → 2 ∣ post.length →
      (∀ x ∈ pre, x < 256) → (∀ x ∈ post, x < 256) →
      pre.length + 2 + post.length ≤ 131072 →
      calculate_checksum
        (pre ++ toBytes2 (calculate_checksum (pre ++ [0, 0] ++ post)) ++ post)
        = 0) ∧
    (∀ (src_ip dst_ip : List ℕ) (protocol : ℕ) (payload pkt : List ℕ),
      src_ip.length = 4 → dst_ip.length = 4 →
      (∀ x ∈ src_ip, x < 256) → (∀ x ∈ dst_ip, x < 256) →
      ip4_packet src_ip dst_ip protocol payload = some pkt →
      calculate_checksum (pkt.take 20) = 0) :=
  ⟨fun pre post h2 _ hB hB2 hlen => checksum_embed_zero pre post h2 hB hB2 hlen,
   fun src_ip dst_ip protocol payload pkt h4 h4d hB hB2 hpkt =>
     ip4_header_checksum_zero src_ip dst_ip protocol payload pkt h4 h4d hB hB2
       hpkt⟩

/-- Witness for C2 on a concrete buffer and a concrete encoded packet. -/
theorem checksum_field_verifies_witness :
    calculate_checksum
      ([1, 2] ++ toBytes2 (calculate_checksum ([1, 2] ++ [0, 0] ++ [3, 4]))
        ++ [3, 4]) = 0 ∧
    calculate_checksum
      (((ip4_packet MY_IP_ADDR ROUTER_IP_ADDR 1 [1, 2, 3, 4]).getD []).take 20)
      = 0 :=
  ⟨checksum_field_verifies.1 [1, 2] [3, 4] (by decide) (by decide) (by decide)
      (by decide) (by decide),
   checksum_field_verifies.2 MY_IP_ADDR ROUTER_IP_ADDR 1 [1, 2, 3, 4] _
      (by decide) (by decide) (by decide) (by decide) (by decide)⟩

/-- C3: the ARP request encoder produces 28 bytes with the claimed fixed
fields, but the decoder returns only the FIRST TWO bytes of the 4-byte
target IP as `tpa` (the source slices `data[24:26]` instead of
`data[24:28]`), so the decoded target IP is not the full `dst_ip`. -/
theorem arp_request_decode_truncated_tpa :
    (arp_request MY_MAC_ADDR MY_IP_ADDR [10, 0, 0, 254]).length = 28 ∧
    decode_arp_packet (arp_request MY_MAC_ADDR MY_IP_ADDR [10, 0, 0, 254])
      = ⟨[0, 1], [8, 0], [6], [4], [0, 1], MY_MAC_ADDR, MY_IP_ADDR,
          List.replicate 6 0, [10, 0]⟩ ∧
    (decode_arp_packet (arp_request MY_MAC_ADDR MY_IP_ADDR [10, 0, 0, 254])).tpa
      ≠ [10, 0, 0, 254] := by
  refine ⟨by decide, by decide, by decide⟩

/-- C4 counterexample: the claim's no-match guarantee fails on a
non-matching but malformed frame.  A 14-byte frame addressed to our MAC
with the IPv4 ethertype has an empty payload, so `decode_ipv4_packet`
raises `IndexError` inside the echo waiter, which therefore raises
(`Except.error`) instead of returning the no-match outcome, even though
no matching frame ever arrives. -/
theorem echo_waiter_malformed_frame_raises :
    (receive_echo_reply [8, 8, 8, 8] 1 1
        [((0 : ℚ), MY_MAC_ADDR ++ MY_MAC_ADDR ++ IPV4_ETHERTYPE)] 1).1
      = .error () ∧
    ¬ (receive_echo_reply [8, 8, 8, 8] 1 1
        [((0 : ℚ), MY_MAC_ADDR ++ MY_MAC_ADDR ++ IPV4_ETHERTYPE)] 1).1
      = .ok none := by
  refine ⟨by decide, by decide⟩

/-- C4 amended: for every positive deadline and every (finite) arrival
sequence, both reply waiters spend at most the deadline blocked in
`select` in total; the ARP waiter reports no match whenever no arriving
frame matches, and the echo waiter reports no match whenever every
arriving frame is non-matching AND decodable (its filter evaluates to
`.ok none`) — a malformed frame that passes the MAC/ethertype check makes
the echo waiter raise an index error instead (see the counterexample). -/
theorem reply_waiter_deadline_bound :
    (∀ (sender_ip : List ℕ) (arrivals : List (ℚ × List ℕ)) (d : ℚ), 0 < d →
      (receive_arp_response sender_ip arrivals d).2 ≤ d ∧
      ((∀ p ∈ arrivals, arp_match sender_ip p.2 = false) →
        (receive_arp_response sender_ip arrivals d).1 = none)) ∧
    (∀ (src_ip : List ℕ) (identifier sequence_no : ℕ)
        (arrivals : List (ℚ × List ℕ)) (d : ℚ), 0 < d →
      (receive_echo_reply src_ip identifier sequence_no arrivals d).2 ≤ d ∧
      ((∀ p ∈ arrivals,
          echo_match src_ip identifier sequence_no p.2 = .ok none) →
        (receive_echo_reply src_ip identifier sequence_no arrivals d).1
          = .ok none)) :=
  ⟨fun sip arr d hd => ⟨receive_arp_time_le sip arr d hd,
      receive_arp_none sip arr d⟩,
   fun sip idf sq arr d hd => ⟨receive_echo_time_le sip idf sq arr d hd,
      receive_echo_none sip idf sq arr d⟩⟩

/-- Witness for C4 on a concrete transport with a non-matching frame. -/
theorem reply_waiter_deadline_bound_witness :
    ((receive_arp_response [192, 168, 1, 1] [(0, [1, 2, 3])] 1).2 ≤ 1 ∧
      (receive_arp_response [192, 168, 1, 1] [(0, [1, 2, 3])] 1).1 = none) ∧
    ((receive_echo_reply [8, 8, 8, 8] 1 1 [(0, [1, 2, 3])] 1).2 ≤ 1 ∧
      (receive_echo_reply [8, 8, 8, 8] 1 1 [(0, [1, 2, 3])] 1).1 = .ok none) :=
  ⟨⟨(reply_waiter_deadline_bound.1 [192, 168, 1, 1] [(0, [1, 2, 3])] 1
      (by norm_num)).1,
    (reply_waiter_deadline_bound.1 [192, 168, 1, 1] [(0, [1, 2, 3])] 1
      (by norm_num)).2 (by decide)⟩,
   ⟨(reply_waiter_deadline_bound.2 [8, 8, 8, 8] 1 1 [(0, [1, 2, 3])] 1
      (by norm_num)).1,
    (reply_waiter_deadline_bound.2 [8, 8, 8, 8] 1 1 [(0, [1, 2, 3])] 1
      (by norm_num)).2 (by decide)⟩⟩

/-- C5: a resolve call for an IP already in the ARP cache returns the
cached MAC immediately, sends nothing, and enters no wait; and after one
successful resolution, a second resolve call for the same IP behaves that
way. -/
theorem arp_cache_hit_no_io :
    (∀ (table : List (List ℕ × List ℕ)) (arrivals : List (ℚ × List ℕ))
        (ip_addr mac : List ℕ),
      table_get table ip_addr = some mac →
      resolve_local_ip_addr table arrivals ip_addr
        = ⟨some mac, [], false, table⟩) ∧
    (∀ (table : List (List ℕ × List ℕ))
        (arrivals arrivals2 : List (ℚ × List ℕ)) (ip_addr mac : List ℕ),
      (resolve_local_ip_addr table arrivals ip_addr).result = some mac →
      resolve_local_ip_addr (resolve_local_ip_addr table arrivals ip_addr).table
          arrivals2 ip_addr
        = ⟨some mac, [], false,
            (resolve_local_ip_addr table arrivals ip_addr).table⟩) ∧
    (∀ (table : List (List ℕ × List ℕ))
        (arrivals arrivals2 : List (ℚ × List ℕ)) (mac : List ℕ),
      (resolve_ip_addr table arrivals [192, 168, 1, 1]).result = some mac →
      resolve_ip_addr (resolve_ip_addr table arrivals [192, 168, 1, 1]).table
          arrivals2 [192, 168, 1, 1]
        = ⟨some mac, [], false,
            (resolve_ip_addr table arrivals [192, 168, 1, 1]).table⟩) := by
  refine ⟨?_, ?_, ?_⟩
  · exact fun table arrivals ip_addr mac h =>
      resolve_local_cached table arrivals ip_addr mac h
  · intro table arrivals arrivals2 ip_addr mac h
    exact resolve_local_cached _ arrivals2 ip_addr mac
      (resolve_local_result_in_table table arrivals ip_addr mac h)
  · intro table arrivals arrivals2 mac h
    have hsub : is_on_same_subnet [192, 168, 1, 1] = true := by decide
    simp only [resolve_ip_addr, hsub, if_true] at h ⊢
    exact resolve_local_cached _ arrivals2 _ mac
      (resolve_local_result_in_table table arrivals _ mac h)

/-- Witness for C5: a cache hit on a one-entry table, and a second resolve
of 192.168.1.1 after a first resolution that succeeded via a matching ARP
reply arrival. -/
theorem arp_cache_hit_no_io_witness :
    resolve_local_ip_addr [([192, 168, 1, 1], [0, 31, 22, 248, 55, 134])] []
        [192, 168, 1, 1]
      = ⟨some [0, 31, 22, 248, 55, 134], [], false,
          [([192, 168, 1, 1], [0, 31, 22, 248, 55, 134])]⟩ ∧
    resolve_local_ip_addr
        (resolve_local_ip_addr [] [(0, arpReplyFrame)] [192, 168, 1, 1]).table
        [] [192, 168, 1, 1]
      = ⟨some [0, 31, 22, 248, 55, 134], [], false,
          (resolve_local_ip_addr [] [(0, arpReplyFrame)] [192, 168, 1, 1]).table⟩ ∧
    resolve_ip_addr
        (resolve_ip_addr [] [(0, arpReplyFrame)] [192, 168, 1, 1]).table
        [] [192, 168, 1, 1]
      = ⟨some [0, 31, 22, 248, 55, 134], [], false,
          (resolve_ip_addr [] [(0, arpReplyFrame)] [192, 168, 1, 1]).table⟩ :=
  ⟨arp_cache_hit_no_io.1 [([192, 168, 1, 1], [0, 31, 22, 248, 55, 134])] []
      [192, 168, 1, 1] [0, 31, 22, 248, 55, 134] (by decide),
   arp_cache_hit_no_io.2.1 [] [(0, arpReplyFrame)] [] [192, 168, 1, 1]
      [0, 31, 22, 248, 55, 134] (by decide),
   arp_cache_hit_no_io.2.2 [] [(0, arpReplyFrame)] [] [0, 31, 22, 248, 55, 134]
      (by decide)⟩

/-- C6 counterexample: byte buffers strictly shorter than each format's
minimum length decode WITHOUT any error — the Ethernet and ARP decoders
return records with truncated fields, and the IPv4 and ICMP decoders
succeed on 19- and 7-byte buffers respectively — refuting the claim that
such buffers fail with `TruncatedFrameError`. -/
theorem short_buffers_decode_without_error :
    decode_ethernet_frame (List.replicate 13 0)
      = ⟨List.replicate 6 0, List.replicate 6 0, [0], []⟩ ∧
    decode_arp_packet (List.replicate 27 0)
      = ⟨[0, 0], [0, 0], [0], [0], [0, 0], List.replicate 6 0,
          List.replicate 4 0, List.replicate 6 0, [0, 0]⟩ ∧
    (decode_ipv4_packet (List.replicate 19 0)).isSome = true ∧
    (decode_icmp_packet (List.replicate 7 0)).isSome = true := by
  refine ⟨by decide, by decide, by decide, by decide⟩

/-- C6 amended: the decoders perform no minimum-length validation and
never raise a dedicated truncation error: Ethernet and ARP decoding are
total slicing on every buffer, and IPv4/ICMP decoding succeed exactly when
the buffer is long enough for their single-byte accesses (10 and 2 bytes),
failing below that with an index error. -/
theorem decoders_no_length_validation :
    ∀ data : List ℕ,
      decode_ethernet_frame data
        = ⟨pyslice data 0 6, pyslice data 6 12, pyslice data 12 14,
            data.drop 14⟩ ∧
      decode_arp_packet data
        = ⟨pyslice data 0 2, pyslice data 2 4, pyslice data 4 5,
            pyslice data 5 6, pyslice data 6 8, pyslice data 8 14,
            pyslice data 14 18, pyslice data 18 24, pyslice data 24 26⟩ ∧
      ((decode_ipv4_packet data).isSome ↔ 10 ≤ data.length) ∧
      ((decode_icmp_packet data).isSome ↔ 2 ≤ data.length) := by
  intro data
  refine ⟨rfl, rfl, ?_, ?_⟩
  · unfold decode_ipv4_packet
    split_ifs with h <;> simp [h]
  · unfold decode_icmp_packet
    split_ifs with h <;> simp [h]

/-- Witness for C7 at identifier 1, sequence 1, with the notebook's own
addresses. -/
theorem icmp_three_layer_round_trip_witness :
    ∃ icmp_msg ip_pkt ip_dec icmp_dec,
      icmp_ping_request_packet 1 1 = some icmp_msg ∧
      ip4_packet MY_IP_ADDR ROUTER_IP_ADDR 1 icmp_msg = some ip_pkt ∧
      (decode_ethernet_frame (ethernet_frame [0, 31, 22, 248, 55, 134]
        MY_MAC_ADDR IPV4_ETHERTYPE ip_pkt)).payload = ip_pkt ∧
      decode_ipv4_packet ip_pkt = some ip_dec ∧
      decode_icmp_packet ip_dec.payload = some icmp_dec ∧
      icmp_dec.identifier = 1 ∧
      icmp_dec.sequence_no = 1 ∧
      icmp_dec.payload = PING_PAYLOAD :=
  icmp_three_layer_round_trip [0, 31, 22, 248, 55, 134] MY_MAC_ADDR MY_IP_ADDR
    ROUTER_IP_ADDR 1 1 (by decide) (by decide) (by decide) (by decide)
    (by decide) (by decide)

/-- C8: when ARP resolution fails, `send_echo_request` sends nothing on
its socket, but instead of returning a distinct no-route outcome it
raises (`TypeError` from `None + bytes` while building the Ethernet
frame), modelled here as the `Except.error` outcome. -/
theorem ping_unresolved_raises_type_error :
    (resolve_ip_addr [] [] [192, 168, 1, 77]).result = none ∧
    (send_echo_request [] [] [192, 168, 1, 77] 1 1).outcome = .error () ∧
    (send_echo_request [] [] [192, 168, 1, 77] 1 1).sent = [] := by
  refine ⟨by decide, by decide, by decide⟩

/-- C9 counterexample: on an odd-length buffer the checksum does NOT
behave as if a zero byte were appended at the end: `checksum([0x01])`
differs from `checksum([0x01, 0x00])`. -/
theorem odd_checksum_pad_counterexample :
    ¬ calculate_checksum [1] = calculate_checksum ([1] ++ [0]) := by decide

/-- C9 amended: the final lone byte of an odd-length buffer contributes as
the LOW-order byte of a 16-bit word whose high byte is zero — equivalent
to inserting a zero byte BEFORE the final byte, not appending one after
it. -/
theorem odd_checksum_low_byte (l : List ℕ) (b : ℕ) (h : 2 ∣ l.length) :
    calculate_checksum (l ++ [b]) = calculate_checksum (l ++ [0, b]) := by
  rw [calculate_checksum_eq, calculate_checksum_eq,
    checksumWords_append l [b] h, checksumWords_append l [0, b] h]
  simp [checksumWords]

/-- Witness for C9's amended statement on a concrete even-length prefix. -/
theorem odd_checksum_low_byte_witness :
    calculate_checksum ([1, 2] ++ [3]) = calculate_checksum ([1, 2] ++ [0, 3]) :=
  odd_checksum_low_byte [1, 2] 3 (by decide)

/-- C10: the IPv4 decoder always splits header from payload at the fixed
offset 20, regardless of the IHL field it decoded. -/
theorem ipv4_decoder_fixed_20_byte_split :
    ∀ data : List ℕ, 20 ≤ data.length →
      ∃ p, decode_ipv4_packet data = some p ∧ p.payload = data.drop 20 :=
  fun data h => ⟨_, decode_ipv4_fields data (by omega), rfl⟩

/-- Witness for C10 on a 24-byte buffer whose IHL field is 6 (advertising
four option bytes, which nevertheless land in the payload). -/
theorem ipv4_decoder_fixed_20_byte_split_witness :
    ∃ p, decode_ipv4_packet (0x46 :: List.replicate 23 0) = some p ∧
      p.payload = (0x46 :: List.replicate 23 0).drop 20 :=
  ipv4_decoder_fixed_20_byte_split (0x46 :: List.replicate 23 0) (by decide)
